import Mathlib

/-!
Shallow embedding of the Aegis-Assets fixture generators:

* `src/demo_gltf_test.py` — `create_cube_mesh_gltf`, which builds a unit-cube
  mesh, packs positions/normals/UVs as little-endian 32-bit floats and the
  triangle indices as little-endian unsigned 16-bit integers into one binary
  buffer, and emits a glTF JSON description with four accessors.
* `src/demo_unity_bundle.py` — `create_minimal_unityfs_bundle` and
  `create_texture_demo_bundle`, which write UnityFS-style bundle files
  (big-endian header, block table, directory, zero padding).
* `src/test_unity_integration.py` — `create_test_unity_file`, a third
  bundle fixture generator.

Floats in the fixtures take only the values -1, -1/2, 0, 1/2 and 1,
all exactly representable in IEEE-754 binary32, so they are modelled as
rationals (written with `mkRat`, which the kernel evaluates); each packed float occupies 4 bytes, each packed unsigned short
2 bytes, which is all the byte-offset arithmetic depends on.
-/

set_option maxRecDepth 4000

/-! ## Byte-encoding helpers (struct.pack equivalents) -/

/-- Big-endian encoding of `n` in `w` bytes (Python `struct.pack` with
`>I`, `>Q`, `>H`, or `int.to_bytes(w, 'big')`). -/
def beBytes (w n : Nat) : List Nat :=
  match w with
  | 0 => []
  | Nat.succ w0 => (n / 256 ^ w0) % 256 :: beBytes w0 n

/-- `struct.pack('>H', n)` — 2-byte big-endian. -/
def u16be (n : Nat) : List Nat := beBytes 2 n

/-- `struct.pack('>I', n)` — 4-byte big-endian. -/
def u32be (n : Nat) : List Nat := beBytes 4 n

/-- `struct.pack('>Q', n)` — 8-byte big-endian. -/
def u64be (n : Nat) : List Nat := beBytes 8 n

/-- `struct.pack('<H', n)` — 2-byte little-endian, as used for glTF indices. -/
def u16le (n : Nat) : List Nat := [n % 256, (n / 256) % 256]

/-- Decode a byte stream as consecutive little-endian unsigned 16-bit
integers (how a glTF consumer reads an UNSIGNED_SHORT accessor). -/
def decodeU16le : List Nat → List Nat
  | a :: b :: rest => (a + 256 * b) :: decodeU16le rest
  | _ => []

/-- ASCII bytes of a string literal (all fixture strings are ASCII). -/
def asciiBytes (s : String) : List Nat := s.data.map Char.toNat

/-- A null-terminated string: the bytes followed by a 0 terminator
(the fixtures write e.g. `b'2022.3.15f1\x00'`). -/
def cstrBytes (s : List Nat) : List Nat := s ++ [0]

/-- The padding step shared by all three bundle generators: if the bytes
written so far fall short of the declared size, append zero bytes up to it
(`remaining = size - tell(); if remaining > 0: write(b'\x00' * remaining)`). -/
def padTo (size : Nat) (bs : List Nat) : List Nat :=
  bs ++ List.replicate (size - bs.length) 0

/-! ## glTF cube fixture (`src/demo_gltf_test.py`, `create_cube_mesh_gltf`) -/

/-- The cube vertex positions (8 vertices × 3 components). -/
def positions : List ℚ :=
  [mkRat (-1) 2, mkRat (-1) 2,  mkRat 1 2,
    mkRat 1 2, mkRat (-1) 2,  mkRat 1 2,
    mkRat 1 2,  mkRat 1 2,  mkRat 1 2,
   mkRat (-1) 2,  mkRat 1 2,  mkRat 1 2,
   mkRat (-1) 2, mkRat (-1) 2, mkRat (-1) 2,
    mkRat 1 2, mkRat (-1) 2, mkRat (-1) 2,
    mkRat 1 2,  mkRat 1 2, mkRat (-1) 2,
   mkRat (-1) 2,  mkRat 1 2, mkRat (-1) 2]

/-- The cube normals as written by the fixture (6 face normals × 3 components). -/
def normals : List ℚ :=
  [mkRat 0 1, mkRat 0 1, mkRat 1 1,
   mkRat 0 1, mkRat 0 1, mkRat (-1) 1,
   mkRat (-1) 1, mkRat 0 1, mkRat 0 1,
   mkRat 1 1, mkRat 0 1, mkRat 0 1,
   mkRat 0 1, mkRat 1 1, mkRat 0 1,
   mkRat 0 1, mkRat (-1) 1, mkRat 0 1]

/-- The cube UV coordinates (24 components as written). -/
def uvs : List ℚ :=
  [mkRat 0 1, mkRat 0 1, mkRat 1 1, mkRat 0 1, mkRat 1 1, mkRat 1 1, mkRat 0 1, mkRat 1 1,
   mkRat 0 1, mkRat 0 1, mkRat 1 1, mkRat 0 1, mkRat 1 1, mkRat 1 1, mkRat 0 1, mkRat 1 1,
   mkRat 0 1, mkRat 0 1, mkRat 1 1, mkRat 0 1, mkRat 1 1, mkRat 1 1, mkRat 0 1, mkRat 1 1]

/-- The cube triangle indices, in source order (6 faces × 2 triangles). -/
def indices : List Nat :=
  [0, 1, 2,  0, 2, 3,
   5, 4, 7,  5, 7, 6,
   4, 0, 3,  4, 3, 7,
   1, 5, 6,  1, 6, 2,
   3, 2, 6,  3, 6, 7,
   4, 5, 1,  4, 1, 0]

/-- One packed item of the binary buffer: a 32-bit float
(`struct.pack('<f', x)`, 4 bytes) or an unsigned 16-bit integer
(`struct.pack('<H', n)`, 2 bytes). -/
inductive BufItem where
  | f32 (x : ℚ)
  | u16 (n : Nat)
deriving DecidableEq

/-- Byte width of one packed item. -/
def itemLen : BufItem → Nat
  | .f32 _ => 4
  | .u16 _ => 2

/-- Byte length of a packed item sequence. -/
def byteLen (l : List BufItem) : Nat := (l.map itemLen).sum

/-- The binary buffer built by `create_cube_mesh_gltf`: positions, then
normals, then UVs as packed floats, then indices as packed unsigned shorts,
appended in that order. -/
def binary_data : List BufItem :=
  positions.map BufItem.f32 ++ normals.map BufItem.f32 ++
    uvs.map BufItem.f32 ++ indices.map BufItem.u16

/-- The byte encoding of the index segment: each index packed with
`struct.pack('<H', index)` in source order. -/
def packIndices (l : List Nat) : List Nat := (l.map u16le).flatten

/-- glTF accessor element type. -/
inductive AccType where
  | vec3
  | vec2
  | scalar
deriving DecidableEq

/-- A glTF accessor as emitted in the fixture's JSON. -/
structure Accessor where
  bufferView : Nat
  byteOffset : Nat
  componentType : Nat
  count : Nat
  accType : AccType
  minBound : Option (List ℚ) := none
  maxBound : Option (List ℚ) := none
deriving DecidableEq

/-- The POSITION accessor of the fixture. -/
def accessorPosition : Accessor :=
  { bufferView := 0, byteOffset := 0, componentType := 5126, count := 8,
    accType := .vec3,
    minBound := some [mkRat (-1) 2, mkRat (-1) 2, mkRat (-1) 2], maxBound := some [mkRat 1 2, mkRat 1 2, mkRat 1 2] }

/-- The NORMAL accessor of the fixture (`byteOffset = 8 * 3 * 4`). -/
def accessorNormal : Accessor :=
  { bufferView := 0, byteOffset := 8 * 3 * 4, componentType := 5126,
    count := 8, accType := .vec3 }

/-- The TEXCOORD_0 accessor of the fixture (`byteOffset = 8*3*4 + 8*3*4`). -/
def accessorTexcoord : Accessor :=
  { bufferView := 0, byteOffset := 8 * 3 * 4 + 8 * 3 * 4,
    componentType := 5126, count := 8, accType := .vec2 }

/-- The index accessor of the fixture
(`byteOffset = 8*3*4 + 8*3*4 + 8*2*4`, UNSIGNED_SHORT). -/
def accessorIndices : Accessor :=
  { bufferView := 0, byteOffset := 8 * 3 * 4 + 8 * 3 * 4 + 8 * 2 * 4,
    componentType := 5123, count := 36, accType := .scalar }

/-- The single buffer's declared `byteLength`: the fixture writes
`len(binary_data)`. -/
def bufferByteLength : Nat := byteLen binary_data

/-- The single bufferView's declared `byteLength`: also `len(binary_data)`. -/
def bufferViewByteLength : Nat := byteLen binary_data

/-- Actual byte offset of the normals stream inside `binary_data`. -/
def actualNormalsOffset : Nat := byteLen (positions.map BufItem.f32)

/-- Actual byte offset of the UV stream inside `binary_data`. -/
def actualUvsOffset : Nat :=
  byteLen (positions.map BufItem.f32 ++ normals.map BufItem.f32)

/-- Actual byte offset of the index stream inside `binary_data`. -/
def actualIndicesOffset : Nat :=
  byteLen (positions.map BufItem.f32 ++ normals.map BufItem.f32 ++
    uvs.map BufItem.f32)

/-- Split a flat coordinate list into its x, y, z component streams. -/
def comps : List ℚ → List ℚ × List ℚ × List ℚ
  | x :: y :: z :: rest =>
      let (xs, ys, zs) := comps rest
      (x :: xs, y :: ys, z :: zs)
  | _ => ([], [], [])

/-- Minimum of a rational list (`none` on empty). -/
def listMin : List ℚ → Option ℚ
  | [] => none
  | a :: rest => some (rest.foldl (fun u v => if u ≤ v then u else v) a)

/-- Maximum of a rational list (`none` on empty). -/
def listMax : List ℚ → Option ℚ
  | [] => none
  | a :: rest => some (rest.foldl (fun u v => if u ≤ v then v else u) a)

/-- Componentwise minimum of a flat VEC3 stream. -/
def componentMin (l : List ℚ) : Option (List ℚ) :=
  match comps l with
  | (xs, ys, zs) =>
    match listMin xs, listMin ys, listMin zs with
    | some a, some b, some c => some [a, b, c]
    | _, _, _ => none

/-- Componentwise maximum of a flat VEC3 stream. -/
def componentMax (l : List ℚ) : Option (List ℚ) :=
  match comps l with
  | (xs, ys, zs) =>
    match listMax xs, listMax ys, listMax zs with
    | some a, some b, some c => some [a, b, c]
    | _, _, _ => none

/-! ## Unity bundle fixtures (`src/demo_unity_bundle.py`,
`src/test_unity_integration.py`) -/

/-- A block descriptor as written in a fixture's block table
(`>I` uncompressed size, `>I` compressed size, `>H` flags). -/
structure BlockDesc where
  uncompressedSize : Nat
  compressedSize : Nat
  blockFlags : Nat
deriving DecidableEq

/-- A directory entry as written by a fixture
(`>Q` offset, `>Q` size, `>I` flags, null-terminated name). -/
structure DirEntry where
  offset : Nat
  size : Nat
  entryFlags : Nat
  name : List Nat
deriving DecidableEq

/-- The parsed bundle header fields, per the spec's data model
(signature token, format version, engine version/revision strings,
declared total size, compressed/uncompressed block-table sizes, flags). -/
structure BundleHeader where
  sig : List Nat
  formatVersion : Nat
  unityVersion : List Nat
  unityRevision : List Nat
  bundleSize : Nat
  compressedBlocksInfoSize : Nat
  uncompressedBlocksInfoSize : Nat
  flags : Nat
deriving DecidableEq

/-- Serialize a `BundleHeader` in the declared external byte layout:
signature, 4-byte big-endian format version, two null-terminated strings,
8-byte bundle size, 4-byte compressed and uncompressed block-table sizes,
4-byte flags — the exact write order of the demo generators. -/
def serializeHeader (h : BundleHeader) : List Nat :=
  h.sig ++ u32be h.formatVersion ++ cstrBytes h.unityVersion ++
    cstrBytes h.unityRevision ++ u64be h.bundleSize ++
    u32be h.compressedBlocksInfoSize ++ u32be h.uncompressedBlocksInfoSize ++
    u32be h.flags

/-- Serialize one block descriptor as the fixtures write it. -/
def serializeBlock (b : BlockDesc) : List Nat :=
  u32be b.uncompressedSize ++ u32be b.compressedSize ++ u16be b.blockFlags

/-- Serialize one directory entry as the fixtures write it. -/
def serializeDirEntry (e : DirEntry) : List Nat :=
  u64be e.offset ++ u64be e.size ++ u32be e.entryFlags ++ cstrBytes e.name

/-- Virtual-address-space length: the sum of the uncompressed sizes of the
block descriptors (spec §3, `BlockDescriptor` invariant). -/
def vasLength (blocks : List BlockDesc) : Nat :=
  (blocks.map (·.uncompressedSize)).sum

/-- Header fields written by `create_minimal_unityfs_bundle`:
signature `b'UnityFS\x00'`, version 7, Unity 2022.3.15f1 / b58023a2fb5c,
bundle size 256, block-table sizes 48/48, flags 0. -/
def minimal_header : BundleHeader :=
  { sig := cstrBytes (asciiBytes "UnityFS"),
    formatVersion := 7,
    unityVersion := asciiBytes "2022.3.15f1",
    unityRevision := asciiBytes "b58023a2fb5c",
    bundleSize := 256,
    compressedBlocksInfoSize := 48,
    uncompressedBlocksInfoSize := 48,
    flags := 0 }

/-- The single block descriptor written by `create_minimal_unityfs_bundle`
(uncompressed 128, compressed 128, flags 0). -/
def minimal_blocks : List BlockDesc := [⟨128, 128, 0⟩]

/-- The single directory entry written by `create_minimal_unityfs_bundle`
(offset 128, size 64, flags 0, name `SharedAssets0.assets`). -/
def minimal_dir : List DirEntry :=
  [⟨128, 64, 0, asciiBytes "SharedAssets0.assets"⟩]

/-- The bytes of `demo_basic.unity3d` as written by
`create_minimal_unityfs_bundle`: header, block table, directory, then
zero padding up to the declared bundle size 256. -/
def create_minimal_unityfs_bundle : List Nat :=
  padTo 256 (serializeHeader minimal_header ++
    (minimal_blocks.map serializeBlock).flatten ++
    (minimal_dir.map serializeDirEntry).flatten)

/-- Header fields written by `create_texture_demo_bundle`:
signature `b'UnityFS2'`, version 8, Unity 2023.1.0f1 / c1b978022a1a,
bundle size 512, block-table sizes 64/64, flags 0. -/
def texture_header : BundleHeader :=
  { sig := asciiBytes "UnityFS2",
    formatVersion := 8,
    unityVersion := asciiBytes "2023.1.0f1",
    unityRevision := asciiBytes "c1b978022a1a",
    bundleSize := 512,
    compressedBlocksInfoSize := 64,
    uncompressedBlocksInfoSize := 64,
    flags := 0 }

/-- The two block descriptors written by `create_texture_demo_bundle`
(texture block 256/256, material block 128/128, both flags 0). -/
def texture_blocks : List BlockDesc := [⟨256, 256, 0⟩, ⟨128, 128, 0⟩]

/-- The two directory entries written by `create_texture_demo_bundle`
(MainTexture at offset 200 size 256 flags 4, StandardMaterial at offset
456 size 128 flags 8). -/
def texture_dir : List DirEntry :=
  [⟨200, 256, 4, asciiBytes "MainTexture"⟩,
   ⟨456, 128, 8, asciiBytes "StandardMaterial"⟩]

/-- The bytes of `demo_textures.unity3d` as written by
`create_texture_demo_bundle`: header, two block descriptors, two directory
entries, then zero padding up to the declared bundle size 512. -/
def create_texture_demo_bundle : List Nat :=
  padTo 512 (serializeHeader texture_header ++
    (texture_blocks.map serializeBlock).flatten ++
    (texture_dir.map serializeDirEntry).flatten)

/-- Declared bundle size of the integration-test fixture. -/
def test_bundle_size : Nat := 1024

/-- The header bytes written by `create_test_unity_file`
(`src/test_unity_integration.py`): signature `b'UnityFS\0'`, then —
with no 4-byte format-version integer in between — the version string
`b'2022.3.15f1\0'`, revision string `b'abcd1234\0'`, 8-byte bundle size
1024, block-table sizes 100/100, flags 0, all big-endian. -/
def test_header_bytes : List Nat :=
  cstrBytes (asciiBytes "UnityFS") ++
    cstrBytes (asciiBytes "2022.3.15f1") ++
    cstrBytes (asciiBytes "abcd1234") ++
    u64be 1024 ++ u32be 100 ++ u32be 100 ++ u32be 0

/-- The bytes of the integration-test fixture file as written by
`create_test_unity_file`: header bytes, 100 dummy zero bytes, then zero
padding up to 1024. -/
def create_test_unity_file : List Nat :=
  padTo 1024 (test_header_bytes ++ List.replicate 100 0)

/-- The "no compression" consistency condition of the spec, as a decidable
check: if the header flags are 0, the compressed and uncompressed
block-table sizes agree and every block descriptor has equal compressed and
uncompressed sizes. -/
def noCompConsistent (fl cSize uSize : Nat) (blocks : List BlockDesc) : Bool :=
  fl != 0 || (cSize == uSize &&
    blocks.all (fun b => b.compressedSize == b.uncompressedSize))

/-! ## Header write-sequence model (for the layout claim) -/

/-- One header field as written by a generator: a fixed-length signature,
a `w`-byte big-endian integer, or a null-terminated string. Each value of
this type corresponds to one `f.write(...)` call in the Python source. -/
inductive HField where
  | sig (bs : List Nat)
  | intBE (width n : Nat)
  | cstr (s : List Nat)
deriving DecidableEq

/-- The bytes produced by one header-field write. -/
def fieldBytes : HField → List Nat
  | .sig bs => bs
  | .intBE w n => beBytes w n
  | .cstr s => cstrBytes s

/-- The header write sequence of `create_minimal_unityfs_bundle`, one
`HField` per `f.write` call. -/
def minimal_header_fields : List HField :=
  [.sig (cstrBytes (asciiBytes "UnityFS")),
   .intBE 4 7,
   .cstr (asciiBytes "2022.3.15f1"),
   .cstr (asciiBytes "b58023a2fb5c"),
   .intBE 8 256,
   .intBE 4 48,
   .intBE 4 48,
   .intBE 4 0]

/-- The header write sequence of `create_texture_demo_bundle`. -/
def texture_header_fields : List HField :=
  [.sig (asciiBytes "UnityFS2"),
   .intBE 4 8,
   .cstr (asciiBytes "2023.1.0f1"),
   .cstr (asciiBytes "c1b978022a1a"),
   .intBE 8 512,
   .intBE 4 64,
   .intBE 4 64,
   .intBE 4 0]

/-- The header write sequence of `create_test_unity_file`: signature, then
the two strings directly — it writes no 4-byte format-version integer. -/
def test_header_fields : List HField :=
  [.sig (cstrBytes (asciiBytes "UnityFS")),
   .cstr (asciiBytes "2022.3.15f1"),
   .cstr (asciiBytes "abcd1234"),
   .intBE 8 1024,
   .intBE 4 100,
   .intBE 4 100,
   .intBE 4 0]

/-- Whether a header write sequence matches the declared layout: an 8-byte
signature, a 4-byte big-endian format-version integer, two null-terminated
strings, an 8-byte bundle size, two 4-byte block-table sizes, and 4-byte
flags. -/
def headerLayoutOk : List HField → Bool
  | [.sig s, .intBE 4 _, .cstr _, .cstr _,
     .intBE 8 _, .intBE 4 _, .intBE 4 _, .intBE 4 _] => s.length == 8
  | _ => false

/-! ## Header parser, modelled from the spec -/

/-- Modelled from the spec: the known format-family signature tokens of the
Container Reader (§4.1), whose implementation is not under `src/` (only the
fixture generators are); the two tokens observed in the fixtures. -/
def knownSignatures : List (List Nat) :=
  [cstrBytes (asciiBytes "UnityFS"), asciiBytes "UnityFS2"]

/-- Big-endian value of a byte list. -/
def beVal (bs : List Nat) : Nat := bs.foldl (fun acc b => acc * 256 + b) 0

/-- Read a `w`-byte big-endian integer from the stream. -/
def readBE (w : Nat) (bs : List Nat) : Option (Nat × List Nat) :=
  if w ≤ bs.length then some (beVal (bs.take w), bs.drop w) else none

/-- Read a null-terminated string (bytes up to, excluding, the first 0);
`none` when no terminator is present. -/
def readCString : List Nat → Option (List Nat × List Nat)
  | [] => none
  | b :: rest =>
    if b = 0 then some ([], rest)
    else
      match readCString rest with
      | some (s, r) => some (b :: s, r)
      | none => none

/-- Modelled from the spec: the Container Reader's header parse (§4.1/§6),
whose implementation is not under `src/`. Reads the fixed-length signature
(which must be a known family token), the 4-byte big-endian format version,
two null-terminated strings, the 8-byte bundle size, the two 4-byte
block-table sizes, and the 4-byte flags; returns the parsed header and the
remaining bytes. -/
def parseHeader (bs : List Nat) : Option (BundleHeader × List Nat) :=
  let s := bs.take 8
  if knownSignatures.contains s then
    match readBE 4 (bs.drop 8) with
    | none => none
    | some (ver, r1) =>
      match readCString r1 with
      | none => none
      | some (uv, r2) =>
        match readCString r2 with
        | none => none
        | some (ur, r3) =>
          match readBE 8 r3 with
          | none => none
          | some (bsz, r4) =>
            match readBE 4 r4 with
            | none => none
            | some (cs, r5) =>
              match readBE 4 r5 with
              | none => none
              | some (us, r6) =>
                match readBE 4 r6 with
                | none => none
                | some (fl, r7) =>
                  some (⟨s, ver, uv, ur, bsz, cs, us, fl⟩, r7)
  else none

/-! ## Claim theorems -/

/-- C1: for the unit-cube glTF fixture, the POSITION accessor has count 8
(matching the 8 vertices packed first into the binary buffer), the index
accessor has count 36 (12 triangles), and the POSITION accessor's declared
min/max bounds [-1/2,-1/2,-1/2] and [1/2,1/2,1/2] equal the componentwise
minimum and maximum of the position values packed into the buffer. -/
theorem cube_gltf_counts_and_bounds :
    accessorPosition.count = 8 ∧
    positions.length = 3 * accessorPosition.count ∧
    binary_data.take positions.length = positions.map BufItem.f32 ∧
    accessorIndices.count = 36 ∧
    indices.length = accessorIndices.count ∧
    indices.length / 3 = 12 ∧
    accessorPosition.minBound = componentMin positions ∧
    accessorPosition.maxBound = componentMax positions ∧
    componentMin positions = some [mkRat (-1) 2, mkRat (-1) 2, mkRat (-1) 2] ∧
    componentMax positions = some [mkRat 1 2, mkRat 1 2, mkRat 1 2] := by
  decide

/-- C2 (failing evaluation): every directory entry of both demo bundle
generators has offset + size strictly greater than the virtual address
space length (the sum of the uncompressed block sizes of the same bundle):
the minimal bundle's single entry reaches 192 against a 128-byte space,
and the texture bundle's entries reach 456 and 584 against a 384-byte
space. -/
theorem bundle_dir_entries_exceed_vas :
    vasLength minimal_blocks = 128 ∧
    minimal_dir.map (fun e => e.offset + e.size) = [192] ∧
    (minimal_dir.all fun e => e.offset + e.size ≤ vasLength minimal_blocks)
      = false ∧
    vasLength texture_blocks = 384 ∧
    texture_dir.map (fun e => e.offset + e.size) = [456, 584] ∧
    (texture_dir.all fun e => e.offset + e.size ≤ vasLength texture_blocks)
      = false := by
  decide

/-- C3 (counterexample): the integration-test generator
`create_test_unity_file` does not follow the declared header layout — its
write sequence has no 4-byte big-endian format-version integer between the
signature and the null-terminated engine-version string. -/
theorem test_unity_header_layout_refuted :
    headerLayoutOk test_header_fields = false ∧
    (test_header_fields.map fieldBytes).flatten = test_header_bytes := by
  decide

/-- C3 (amended): the two demo bundle generators
(`create_minimal_unityfs_bundle`, `create_texture_demo_bundle`) write a
fixed-length 8-byte signature, a 4-byte big-endian format-version integer,
two null-terminated strings, an 8-byte bundle size, 4-byte compressed and
uncompressed block-table sizes, and 4-byte flags, in that order; their
field sequences produce exactly the serialized header bytes. -/
theorem demo_bundle_header_layout :
    headerLayoutOk minimal_header_fields = true ∧
    headerLayoutOk texture_header_fields = true ∧
    (minimal_header_fields.map fieldBytes).flatten
      = serializeHeader minimal_header ∧
    (texture_header_fields.map fieldBytes).flatten
      = serializeHeader texture_header := by
  decide

/-- C4 (failing evaluation): in the cube glTF fixture the NORMAL accessor
declares count 8 while only 6 normals (18 floats) are packed, the
TEXCOORD_0 accessor declares byte offset 192 while the UV stream actually
starts at byte 168, and the index accessor declares byte offset 256 while
the index stream actually starts at byte 264. -/
theorem cube_gltf_accessor_layout_mismatch :
    accessorNormal.byteOffset = actualNormalsOffset ∧
    accessorNormal.count = 8 ∧
    normals.length = 6 * 3 ∧
    3 * accessorNormal.count ≠ normals.length ∧
    accessorTexcoord.byteOffset = 192 ∧
    actualUvsOffset = 168 ∧
    accessorTexcoord.byteOffset ≠ actualUvsOffset ∧
    accessorIndices.byteOffset = 256 ∧
    actualIndicesOffset = 264 ∧
    accessorIndices.byteOffset ≠ actualIndicesOffset := by
  decide

/-- C5: all three fixtures write header flags 0 (no compression), and in
each the compressed block-table size equals the uncompressed one and every
block descriptor's compressed size equals its uncompressed size. -/
theorem no_compression_sizes_consistent :
    minimal_header.flags = 0 ∧
    texture_header.flags = 0 ∧
    noCompConsistent minimal_header.flags
      minimal_header.compressedBlocksInfoSize
      minimal_header.uncompressedBlocksInfoSize minimal_blocks = true ∧
    noCompConsistent texture_header.flags
      texture_header.compressedBlocksInfoSize
      texture_header.uncompressedBlocksInfoSize texture_blocks = true ∧
    noCompConsistent 0 100 100 [] = true := by
  decide

/-- C6: the cube fixture's triangle indices, all below 65536, are packed as
little-endian unsigned 16-bit integers at the end of the binary buffer in
source order; the index accessor declares component type 5123
(UNSIGNED_SHORT) with count 36, and decoding the packed bytes reproduces
the source index list exactly (preserving winding and face grouping). -/
theorem cube_gltf_index_packing :
    accessorIndices.componentType = 5123 ∧
    accessorIndices.count = 36 ∧
    (indices.all fun i => i < 65536) = true ∧
    binary_data.drop (positions.length + normals.length + uvs.length)
      = indices.map BufItem.u16 ∧
    decodeU16le (packIndices indices) = indices := by
  decide

/-- C7: each fixture's declared bundle size is at least the length of the
header bytes written, and after the generator's zero-padding step the file
length equals the declared bundle size exactly (256, 512 and 1024 bytes
respectively). -/
theorem bundle_size_covers_header_and_padding :
    (serializeHeader minimal_header).length ≤ minimal_header.bundleSize ∧
    create_minimal_unityfs_bundle.length = minimal_header.bundleSize ∧
    (serializeHeader texture_header).length ≤ texture_header.bundleSize ∧
    create_texture_demo_bundle.length = texture_header.bundleSize ∧
    test_header_bytes.length ≤ test_bundle_size ∧
    create_test_unity_file.length = test_bundle_size := by
  decide

/-- C8: parsing each fixture's bytes according to the declared external
byte layout succeeds, and re-serializing the parsed `BundleHeader` fields
followed by the unread remainder reproduces the original bytes exactly;
for the two demo generators the parsed header is exactly the field set the
generator wrote. (For the integration-test fixture the round-trip also
holds, with the four signature-adjacent bytes of its version string parsed
as the format-version integer 842019378.) -/
theorem bundle_header_roundtrip :
    (parseHeader create_minimal_unityfs_bundle).map Prod.fst
      = some minimal_header ∧
    (parseHeader create_minimal_unityfs_bundle).map
        (fun p => serializeHeader p.1 ++ p.2)
      = some create_minimal_unityfs_bundle ∧
    (parseHeader create_texture_demo_bundle).map Prod.fst
      = some texture_header ∧
    (parseHeader create_texture_demo_bundle).map
        (fun p => serializeHeader p.1 ++ p.2)
      = some create_texture_demo_bundle ∧
    (parseHeader create_test_unity_file).map
        (fun p => p.1.formatVersion) = some 842019378 ∧
    (parseHeader create_test_unity_file).map
        (fun p => serializeHeader p.1 ++ p.2)
      = some create_test_unity_file := by
  decide

/-- C9: the cube fixture's declared buffer byteLength and bufferView
byteLength both equal the actual byte length of the generated binary
buffer, 336 bytes = 96 (positions) + 72 (normals) + 96 (UVs) + 72
(indices). -/
theorem cube_gltf_buffer_byte_length :
    bufferByteLength = byteLen binary_data ∧
    bufferViewByteLength = byteLen binary_data ∧
    byteLen binary_data = 336 ∧
    byteLen (positions.map BufItem.f32) = 96 ∧
    byteLen (normals.map BufItem.f32) = 72 ∧
    byteLen (uvs.map BufItem.f32) = 96 ∧
    byteLen (indices.map BufItem.u16) = 72 ∧
    96 + 72 + 96 + 72 = 336 := by
  decide

/-- C10: every triangle index of the cube fixture is strictly less than
the vertex count 8 declared by the POSITION accessor. -/
theorem cube_gltf_indices_in_range :
    (indices.all fun i => i < accessorPosition.count) = true ∧
    accessorPosition.count = 8 := by
  decide
